import Mathlib

/-!
Verification of the cross-task coordination and streaming pipeline of the
PyroVision thermal-camera firmware.

The Lean definitions below are shallow embeddings of the C++ sources:

* `FrameChannel`    — the single-slot frame queue (`xQueueCreate(1, ...)` in
  `main.cpp`, `xQueueOverwrite` in `leptonTask.cpp`, `xQueueReceive` in
  `guiTask.cpp`).
* `DoubleBuffer`    — the ping-pong RGB buffer protocol of `Task_Lepton`
  (`leptonTask.cpp` lines 209-243).
* `NetworkManager`  — the WiFi retry state machine of `on_WiFi_Event`
  (`networkManager.cpp` lines 78-254).
* `Provisioning`    — the provisioning lifecycle (`provisioning.cpp`) and the
  network task's timeout handling (`networkTask.cpp` lines 294-301).
* `NetworkTaskStart` — the start-up branch of `Task_Network`
  (`networkTask.cpp` lines 198-220).
* `NetworkTaskTZ`   — the timezone-set event handling (`networkTask.cpp`
  lines 94-101 and 302-315).
* `WebSocketHandler` — the client table, send-retry and broadcast logic of
  `websocket_handler.cpp`.
* `GuiNetworkFrame` — the per-render-cycle `NetworkFrame` update of
  `Task_GUI` (`guiTask.cpp` lines 810-847).

Definitions come first, all theorems follow at the end of the file.
-/

namespace FrameChannel

/-- Frame descriptor published by the capture task
(`App_Lepton_FrameReady_t`, `application.h` lines 103-110).  The borrowed
buffer pointer is modelled as a numeric identifier. -/
structure App_Lepton_FrameReady_t where
  Buffer : Nat
  Width : Nat
  Height : Nat
  Channels : Nat
  Min : Int
  Max : Int
deriving DecidableEq

/-- A FreeRTOS queue of length 1 (`xQueueCreate(1, sizeof(App_Lepton_FrameReady_t))`,
`main.cpp` line 57) holds at most one element. -/
def Queue1 (α : Type) : Type := Option α

/-- `xQueueOverwrite` on a length-1 queue: the new element replaces any
unconsumed prior value and the call always succeeds (second component).
Used by `Task_Lepton` (`leptonTask.cpp` line 256). -/
def xQueueOverwrite {α : Type} (_q : Queue1 α) (x : α) : Queue1 α × Bool :=
  (some x, true)

/-- `xQueueReceive` with zero timeout: returns the slot contents (if any)
and empties the slot.  Used by `Task_GUI` (`guiTask.cpp` line 727). -/
def xQueueReceive {α : Type} (q : Queue1 α) : Option α × Queue1 α :=
  match q with
  | some x => (some x, none)
  | none => (none, none)

/-- A sequence of publishes with no intervening consume. -/
def publishAll {α : Type} (q : Queue1 α) (xs : List α) : Queue1 α :=
  xs.foldl (fun s x => (xQueueOverwrite s x).1) q

end FrameChannel


namespace DoubleBuffer

/-- Phase of the capture task with respect to the ping-pong buffers:
either between frames, or converting into buffer `w`
(`Task_Lepton`, `leptonTask.cpp` lines 209-243). -/
inductive ProdPhase where
  | idle : ProdPhase
  | writing (w : Nat) : ProdPhase
deriving DecidableEq

/-- Shared state of the double-buffer protocol: the mutex-protected
`CurrentReadBuffer` index, the producer phase, and the index most recently
returned to a consumer when its read began. -/
structure DBState where
  currentReadBuffer : Nat
  phase : ProdPhase
  observed : Option Nat
deriving DecidableEq

/-- Initial state: `CurrentReadBuffer = 0` (`Lepton_Task_Init`,
`leptonTask.cpp` line 445), producer idle, no consumer read yet. -/
def dbInit : DBState :=
  { currentReadBuffer := 0, phase := .idle, observed := none }

/-- Atomic steps of the protocol.  `beginWrite` is the first mutex-held
section (`WriteBufferIdx = (CurrentReadBuffer + 1) % 2`, line 212);
the conversion itself happens outside the lock; `commitWrite` is the second
mutex-held section (`CurrentReadBuffer = WriteBufferIdx`, line 238);
`consumerRead` is a GUI-side read of the current index under the mutex,
recording the index returned at the instant the read began. -/
inductive DBStep : DBState → DBState → Prop where
  | beginWrite (s : DBState) (h : s.phase = .idle) :
      DBStep s { s with phase := .writing ((s.currentReadBuffer + 1) % 2) }
  | commitWrite (s : DBState) (w : Nat) (h : s.phase = .writing w) :
      DBStep s { s with currentReadBuffer := w, phase := .idle }
  | consumerRead (s : DBState) :
      DBStep s { s with observed := some s.currentReadBuffer }

/-- States reachable from the initial state under any interleaving. -/
inductive DBReachable : DBState → Prop where
  | init : DBReachable dbInit
  | step {s t : DBState} : DBReachable s → DBStep s t → DBReachable t

/-- Protocol invariant: the read index is a valid buffer index and any
in-progress write targets the buffer opposite to the read index. -/
def DBInv (s : DBState) : Prop :=
  s.currentReadBuffer < 2 ∧
  ∀ w, s.phase = .writing w → w = (s.currentReadBuffer + 1) % 2

end DoubleBuffer


namespace NetworkManager

/-- `Network_State_t` (`network_types.h`). -/
inductive Network_State_t where
  | IDLE : Network_State_t
  | CONNECTING : Network_State_t
  | CONNECTED : Network_State_t
  | DISCONNECTED : Network_State_t
  | PROVISIONING : Network_State_t
  | AP_STARTED : Network_State_t
  | ERROR : Network_State_t
deriving DecidableEq

/-- The slice of `_Network_Manager_State` driving the retry policy
(`networkManager.cpp` lines 54-66), together with a counter of
`esp_wifi_connect()` calls issued so far (to express "no further
automatic reconnect attempts"). -/
structure NM_State where
  RetryCount : Nat
  Retries : Nat
  State : Network_State_t
  ConnectCalls : Nat
deriving DecidableEq

/-- `NetworkManager_StartSTA` (`networkManager.cpp` lines 417-448):
resets `RetryCount` (line 425) and enters `CONNECTING` (line 445).
The subsequent `WIFI_EVENT_STA_START` handler issues the first
`esp_wifi_connect()` (line 84), counted here. -/
def NetworkManager_StartSTA (maxRetries : Nat) : NM_State :=
  { RetryCount := 0, Retries := maxRetries, State := .CONNECTING, ConnectCalls := 1 }

/-- `on_WiFi_Event`, case `WIFI_EVENT_STA_DISCONNECTED`
(`networkManager.cpp` lines 95-218): sets `DISCONNECTED` (line 200), then
if `RetryCount < Retries` post-increments the counter, calls
`esp_wifi_connect()` and re-enters `CONNECTING` (lines 204-209);
otherwise sets `ERROR` and issues no connect call (lines 210-215). -/
def on_STA_Disconnected (s : NM_State) : NM_State :=
  let s1 : NM_State := { s with State := .DISCONNECTED }
  if s1.RetryCount < s1.Retries then
    { s1 with RetryCount := s1.RetryCount + 1, State := .CONNECTING,
              ConnectCalls := s1.ConnectCalls + 1 }
  else
    { s1 with State := .ERROR }

/-- `on_WiFi_Event`, case `WIFI_EVENT_STA_CONNECTED`
(`networkManager.cpp` lines 88-93): resets the retry counter. -/
def on_STA_Connected (s : NM_State) : NM_State :=
  { s with RetryCount := 0 }

/-- State after a fresh `NetworkManager_StartSTA` followed by `n`
consecutive failed connection attempts (each failure surfaces as one
`WIFI_EVENT_STA_DISCONNECTED`). -/
def afterFailures (R : Nat) : Nat → NM_State
  | 0 => NetworkManager_StartSTA R
  | n + 1 => on_STA_Disconnected (afterFailures R n)

end NetworkManager


namespace Provisioning

/-- The `NETWORK_EVENTS` ids posted on the provisioning lifecycle paths. -/
inductive NetEvent where
  | PROV_STARTED : NetEvent
  | PROV_STOPPED : NetEvent
  | PROV_TIMEOUT : NetEvent
deriving DecidableEq

/-- The slice of `_Provisioning_State` (`provisioning.cpp` lines 39-50)
relevant to the timeout scenario, together with the posted event log and a
counter of `NetworkManager_StartAP` calls (to express whether AP mode is
ever started on this path). -/
structure ProvWorld where
  isInitialized : Bool
  active : Bool
  use_captive_portal : Bool
  timerRunning : Bool
  events : List NetEvent
  startAPCalls : Nat
deriving DecidableEq

/-- The all-false starting world (static zero-initialised state). -/
def provBlank : ProvWorld :=
  { isInitialized := false, active := false, use_captive_portal := false,
    timerRunning := false, events := [], startAPCalls := 0 }

/-- `Provisioning_Init` (`provisioning.cpp` lines 172-200): selects the
captive portal unconditionally (`use_captive_portal = true`, line 185) and
creates — but does not start — the one-shot timeout timer (lines 189-193). -/
def Provisioning_Init (w : ProvWorld) : ProvWorld :=
  if w.isInitialized then w
  else { w with isInitialized := true, use_captive_portal := true, timerRunning := false }

/-- `Provisioning_Start` (`provisioning.cpp` lines 224-370).  The captive
portal branch (lines 245-331) starts SoftAP/HTTP/DNS, posts `PROV_STARTED`
and returns WITHOUT starting the timeout timer; only the protobuf branch
(lines 333-369) starts the timer (lines 363-365). -/
def Provisioning_Start (w : ProvWorld) : ProvWorld :=
  if w.isInitialized = false then w
  else if w.active then w
  else if w.use_captive_portal then
    { w with active := true, events := w.events ++ [.PROV_STARTED] }
  else
    { w with active := true, events := w.events ++ [.PROV_STARTED], timerRunning := true }

/-- `Provisioning_Stop` (`provisioning.cpp` lines 372-405): no-op when
inactive; otherwise stops the servers (captive) or the timer and the
provisioning manager (protobuf), clears `active` and posts `PROV_STOPPED`.
No AP mode is started on either branch. -/
def Provisioning_Stop (w : ProvWorld) : ProvWorld :=
  if w.active = false then w
  else if w.use_captive_portal then
    { w with active := false, events := w.events ++ [.PROV_STOPPED] }
  else
    { w with timerRunning := false, active := false, events := w.events ++ [.PROV_STOPPED] }

/-- `Task_Network`, branch `NETWORK_TASK_PROV_TIMEOUT`
(`networkTask.cpp` lines 294-301): stops provisioning and posts
`NETWORK_EVENT_PROV_TIMEOUT`.  No call into `NetworkManager_StartAP`
appears on this path. -/
def task_handle_PROV_TIMEOUT (w : ProvWorld) : ProvWorld :=
  let w1 := Provisioning_Stop w
  { w1 with events := w1.events ++ [.PROV_TIMEOUT] }

end Provisioning


namespace NetworkTaskStart

/-- Outcome of the start-up branch of `Task_Network`: the resulting
orchestrator state, whether `NetworkManager_StartSTA` was called, and
whether `Provisioning_Start` was called. -/
structure StartResult where
  State : NetworkManager.Network_State_t
  startSTACalled : Bool
  provisioningStarted : Bool
deriving DecidableEq

/-- `Task_Network` start-up (`networkTask.cpp` lines 198-220), reached
after the `ApplicationStarted` gate: `WaitingForWiFiRequest` is set to
`AutoConnect == false` (line 203); if it is true the task immediately either
starts provisioning (empty stored SSID) or calls `NetworkManager_StartSTA`;
otherwise it enters `NETWORK_STATE_IDLE` and waits for an explicit open-WiFi
request.  `ssidLen` is `strlen(STA_Config.Credentials.SSID)`. -/
def networkTaskStart (autoConnect : Bool) (ssidLen : Nat) : StartResult :=
  let waitingForWiFiRequest := !autoConnect
  if waitingForWiFiRequest then
    if ssidLen = 0 then
      { State := .PROVISIONING, startSTACalled := false, provisioningStarted := true }
    else
      { State := .CONNECTING, startSTACalled := true, provisioningStarted := false }
  else
    { State := .IDLE, startSTACalled := false, provisioningStarted := false }

end NetworkTaskStart


namespace NetworkTaskTZ

/-- A heap of allocated string cells, address → contents. -/
def Heap : Type := List (Nat × String)

/-- Free (deallocate) a cell. -/
def heapFree (h : Heap) (a : Nat) : Heap :=
  h.filter (fun p => p.1 != a)

/-- Allocate/overwrite a cell. -/
def heapSet (h : Heap) (a : Nat) (v : String) : Heap :=
  (a, v) :: heapFree h a

/-- Dereference a cell; `none` models reading freed memory. -/
def heapGet (h : Heap) (a : Nat) : Option String :=
  List.lookup a h

/-- The slice of `_NetworkTask_State` involved in timezone handling:
the stored `Timezone` POINTER (`const char *Timezone`, `networkTask.cpp`
line 59), the `NETWORK_TASK_SNTP_TIMEZONE_SET` event bit, and the timezone
string the deferred loop ultimately copies into the system settings. -/
structure TZTaskState where
  Timezone : Option Nat
  tzBit : Bool
  savedTimezone : Option String
deriving DecidableEq

/-- `on_Network_Event_Handler`, case `NETWORK_EVENT_SET_TZ`
(`networkTask.cpp` lines 94-102): stores the raw `p_Data` pointer
(`_NetworkTask_State.Timezone = static_cast<const char *>(p_Data)`) and
sets the event bit.  Unlike the `NETWORK_EVENT_CREDENTIALS_UPDATED` case
(lines 78-93), no copy of the pointed-to data is taken. -/
def on_SET_TZ (s : TZTaskState) (p_Data : Nat) : TZTaskState :=
  { s with Timezone := some p_Data, tzBit := true }

/-- Modelled from the spec: the esp_event library (outside `src/`) copies a
posted payload into an event-loop cell, dispatches the registered handler
with a pointer to that cell, and releases the cell when dispatch returns
(copy-on-post semantics, spec section 3 "EventBus Message").  `cell` is the
address of the event-loop cell used for this dispatch. -/
def esp_event_post_SET_TZ (h : Heap) (s : TZTaskState) (payload : String) (cell : Nat) :
    Heap × TZTaskState :=
  let h1 := heapSet h cell payload
  let s1 := on_SET_TZ s cell
  (heapFree h1 cell, s1)

/-- `Task_Network`, branch `NETWORK_TASK_SNTP_TIMEZONE_SET`
(`networkTask.cpp` lines 302-315): dereferences the stored pointer
(`memcpy(&SystemSettings.Timezone, _NetworkTask_State.Timezone, ...)`)
and saves the result. -/
def task_handle_SET_TZ (h : Heap) (s : TZTaskState) : TZTaskState :=
  if s.tzBit then
    { s with savedTimezone := s.Timezone.bind (fun a => heapGet h a), tzBit := false }
  else s

end NetworkTaskTZ


namespace WebSocketHandler

/-- `WS_Client_t` (`websocket_handler.cpp` lines 35-45), with the stream
format omitted (always JPEG, line 236). -/
structure WS_Client_t where
  fd : Nat
  active : Bool
  stream_enabled : Bool
  telemetry_enabled : Bool
  stream_fps : Nat
  telemetry_interval_ms : Nat
  last_telemetry_time : Nat
  last_frame_time : Nat
deriving DecidableEq

/-- The retry loop of `WS_SendBinary` (`websocket_handler.cpp` lines
191-206): up to `n` attempts starting at attempt number `r`, stopping at
the first success; the overall result is the last attempt's outcome. -/
def sendAttempts (attempt : Nat → Bool) : Nat → Nat → Bool
  | _, 0 => false
  | r, n + 1 => if attempt r then true else sendAttempts attempt (r + 1) n

/-- `WS_SendBinary` (`websocket_handler.cpp` lines 181-214): three
attempts; `attempt i` is the outcome of `httpd_ws_send_frame_async` on the
i-th try. -/
def WS_SendBinary (attempt : Nat → Bool) : Bool :=
  sendAttempts attempt 0 3

/-- The per-client frame-rate gate of `WS_BroadcastTask`
(`websocket_handler.cpp` line 616): the client is due when `Now -
last_frame_time` is not below `1000 / stream_fps` (integer division,
Nat subtraction mirroring the unsigned C arithmetic for monotone times). -/
def rateDue (Now : Nat) (c : WS_Client_t) : Bool :=
  !(Now - c.last_frame_time < 1000 / c.stream_fps)

/-- Active-and-streaming filter of the broadcast loop (line 611). -/
def wantsFrame (c : WS_Client_t) : Bool :=
  c.active && c.stream_enabled

/-- Whether the broadcast cycle attempts a send to this client
(lines 608-625): active, streaming, and rate-due. -/
def attemptedSend (Now : Nat) (c : WS_Client_t) : Bool :=
  wantsFrame c && rateDue Now c

/-- Effect of one broadcast cycle on one client (lines 608-638): skipped
clients are untouched; on send success `last_frame_time := Now` (line 632);
on send failure the client is marked inactive (line 635). -/
def cycleClient (Now : Nat) (sendOk : Bool) (c : WS_Client_t) : WS_Client_t :=
  if attemptedSend Now c then
    if sendOk then { c with last_frame_time := Now }
    else { c with active := false }
  else c

/-- Whether this cycle removes the client (send attempted and the
three-attempt send failed), each removal decrementing `ClientCount` once
(line 636). -/
def removedInCycle (Now : Nat) (attempt : Nat → Nat → Bool) (c : WS_Client_t) : Bool :=
  attemptedSend Now c && !(WS_SendBinary (attempt c.fd))

/-- Client table plus the maintained `ClientCount`
(`WebSocket_Handler_State_t`, lines 47-58). -/
structure WSState where
  Clients : List WS_Client_t
  ClientCount : Nat

/-- One full broadcast cycle of `WS_BroadcastTask` (lines 606-641):
every client is processed once; `attempt fd i` is the outcome of the i-th
send attempt to the client with descriptor `fd`. -/
def WS_BroadcastCycle (Now : Nat) (attempt : Nat → Nat → Bool) (s : WSState) : WSState :=
  { Clients := s.Clients.map (fun c => cycleClient Now (WS_SendBinary (attempt c.fd)) c),
    ClientCount := s.ClientCount - s.Clients.countP (fun c => removedInCycle Now attempt c) }

/-- A sequence of broadcast cycles, each with its own time and send
outcomes. -/
def runCycles (s : WSState) : List (Nat × (Nat → Nat → Bool)) → WSState
  | [] => s
  | p :: ps => runCycles (WS_BroadcastCycle p.1 p.2 s) ps

/-- The scan loop of `WS_FindClient` (`websocket_handler.cpp` lines
72-76), entered with `ClientsMutex` held.  The Bool component records
whether the mutex is STILL HELD when the function returns: the match path
(line 74) returns directly from inside the loop, while only the
fall-through path reaches the `xSemaphoreGive` (line 78). -/
def WS_FindClient_loop (FD : Nat) : List WS_Client_t → Option WS_Client_t × Bool
  | [] => (none, false)
  | c :: cs =>
    if c.active && (c.fd == FD) then (some c, true)
    else WS_FindClient_loop FD cs

/-- `WS_FindClient` (`websocket_handler.cpp` lines 68-81): takes the
clients mutex, scans the table for an active client with the given socket
descriptor.  Second component: whether the mutex is still held at return. -/
def WS_FindClient (clients : List WS_Client_t) (FD : Nat) : Option WS_Client_t × Bool :=
  WS_FindClient_loop FD clients

/-- Per-cycle rate-gate decision for a single client observed over a
sequence of cycle times (`websocket_handler.cpp` lines 616-632): starting
from recorded time `last`, a cycle at time `Now` sends only when the gate
passes, and a successful send updates the recorded time to `Now`.  Returns
the times of the successful sends. -/
def sendTimes (fps : Nat) : Nat → List Nat → List Nat
  | _, [] => []
  | last, Now :: rest =>
    if Now - last < 1000 / fps then sendTimes fps last rest
    else Now :: sendTimes fps Now rest

end WebSocketHandler


namespace GuiNetworkFrame

/-- `Network_Thermal_Frame_t` (`network_types.h` lines 144-153), the mutex
handle omitted and the float temperatures modelled as integers (the claims
below only compare the fields for equality). -/
structure Network_Thermal_Frame_t where
  buffer : List Nat
  width : Nat
  height : Nat
  temp_min : Int
  temp_max : Int
  temp_avg : Int
  timestamp : Nat
deriving DecidableEq

/-- The network-frame update of a GUI render cycle (`guiTask.cpp` lines
810-847): when the server is running, the NetworkFrame mutex is polled with
zero timeout (`xSemaphoreTake(..., 0)`, line 812); on success every field
is rewritten from the freshly converted RGB888 data, otherwise nothing is
written.  The Bool result records whether `WebSocket_Handler_NotifyFrameReady`
is reached (lines 843-846), which happens independently of the mutex. -/
def GUI_UpdateNetworkFrame (serverRunning mutexAcquired hasClients : Bool)
    (frame : Network_Thermal_Frame_t) (rgb888 : List Nat) (w h ts : Nat)
    (tmin tmax tavg : Int) : Network_Thermal_Frame_t × Bool :=
  if serverRunning then
    if mutexAcquired then
      ({ buffer := rgb888, width := w, height := h,
         temp_min := tmin, temp_max := tmax, temp_avg := tavg, timestamp := ts },
       hasClients)
    else (frame, hasClients)
  else (frame, false)

end GuiNetworkFrame


/-! ## Theorems -/

namespace FrameChannel

theorem publishAll_getLast {α : Type} :
    ∀ (xs : List α) (q : Queue1 α) (h : xs ≠ []), publishAll q xs = some (xs.getLast h) := by
  intro xs
  induction xs with
  | nil => intro q h; exact absurd rfl h
  | cons x rest ih =>
    intro q h
    cases rest with
    | nil => rfl
    | cons y ys =>
      have hne : y :: ys ≠ [] := by simp
      calc publishAll q (x :: y :: ys)
          = publishAll (some x) (y :: ys) := rfl
        _ = some ((y :: ys).getLast hne) := ih (some x) hne
        _ = some ((x :: y :: ys).getLast h) := by rw [List.getLast_cons hne]

/-- C2: FrameChannel latest-wins.  For every sequence of publishes into the
single-slot frame queue with no intervening consume, a subsequent single
consume returns exactly the most recent descriptor (and empties the slot),
and every publish succeeds immediately (`xQueueOverwrite` returns success
without blocking). -/
theorem C2_frame_channel_latest_wins (q : Queue1 App_Lepton_FrameReady_t)
    (xs : List App_Lepton_FrameReady_t) (h : xs ≠ []) :
    (xQueueReceive (publishAll q xs)).1 = some (xs.getLast h) ∧
    (xQueueReceive (publishAll q xs)).2 = none ∧
    ∀ (q0 : Queue1 App_Lepton_FrameReady_t) (x : App_Lepton_FrameReady_t),
      (xQueueOverwrite q0 x).2 = true := by
  rw [publishAll_getLast xs q h]
  exact ⟨rfl, rfl, fun _ _ => rfl⟩

/-- Concrete frame descriptors for the C2 witness. -/
def wFrame (n : Nat) : App_Lepton_FrameReady_t :=
  { Buffer := n, Width := 160, Height := 120, Channels := 3, Min := 0, Max := 0 }

/-- Witness for C2: publishing three descriptors and then consuming once
returns exactly the third. -/
theorem C2_frame_channel_latest_wins_witness :
    ([wFrame 1, wFrame 2, wFrame 3] : List App_Lepton_FrameReady_t) ≠ [] ∧
    ((xQueueReceive (publishAll none [wFrame 1, wFrame 2, wFrame 3])).1 = some (wFrame 3) ∧
     (xQueueReceive (publishAll none [wFrame 1, wFrame 2, wFrame 3])).2 = none ∧
     ∀ (q0 : Queue1 App_Lepton_FrameReady_t) (x : App_Lepton_FrameReady_t),
       (xQueueOverwrite q0 x).2 = true) :=
  ⟨by simp, C2_frame_channel_latest_wins none [wFrame 1, wFrame 2, wFrame 3] (by simp)⟩

end FrameChannel


namespace DoubleBuffer

theorem dbInv_init : DBInv dbInit := by
  constructor
  · decide
  · intro w h; cases h

theorem dbInv_step {s t : DBState} (hs : DBInv s) (hst : DBStep s t) : DBInv t := by
  rcases hs with ⟨hlt, hw⟩
  cases hst with
  | beginWrite h =>
    refine ⟨hlt, ?_⟩
    intro w hww
    have hinj : (s.currentReadBuffer + 1) % 2 = w := by
      injection hww
    exact hinj.symm
  | commitWrite w h =>
    have hwv : w = (s.currentReadBuffer + 1) % 2 := hw w h
    refine ⟨?_, ?_⟩
    · show w < 2
      rw [hwv]
      exact Nat.mod_lt _ (by decide)
    · intro w2 hw2
      cases hw2
  | consumerRead =>
    exact ⟨hlt, hw⟩

theorem dbInv_reachable {s : DBState} (hs : DBReachable s) : DBInv s := by
  induction hs with
  | init => exact dbInv_init
  | step _ hst ih => exact dbInv_step ih hst

/-- C1: Double-buffer exclusivity.  In every reachable state of the
producer/consumer interleaving, an in-progress write targets
`(currentReadBuffer + 1) % 2`, which differs from the published read index;
consequently any consumer read beginning while the write is in progress
observes an index different from the one being written. -/
theorem C1_double_buffer_exclusivity (s : DBState) (hs : DBReachable s) (w : Nat)
    (hw : s.phase = .writing w) :
    w = (s.currentReadBuffer + 1) % 2 ∧
    s.currentReadBuffer ≠ w ∧
    ∀ t, DBStep s t → ∀ r, t.observed = some r → t.phase = .writing w → r ≠ w := by
  obtain ⟨hlt, hinv⟩ := dbInv_reachable hs
  have hwv : w = (s.currentReadBuffer + 1) % 2 := hinv w hw
  have hne : s.currentReadBuffer ≠ w := by
    subst hwv
    interval_cases h : s.currentReadBuffer <;> decide
  refine ⟨hwv, hne, ?_⟩
  intro t hst r hobs hph
  cases hst with
  | beginWrite h =>
    rw [hw] at h
    cases h
  | commitWrite w2 h =>
    cases hph
  | consumerRead =>
    have hr : s.currentReadBuffer = r := by
      injection hobs
    rw [← hr]
    exact hne

/-- A concrete reachable state for the C1 witness: the producer has begun
writing into buffer 1 while buffer 0 is published for reading. -/
def dbWitnessState : DBState :=
  { dbInit with phase := .writing ((dbInit.currentReadBuffer + 1) % 2) }

/-- Witness for C1 at a concrete reachable state. -/
theorem C1_double_buffer_exclusivity_witness :
    (DBReachable dbWitnessState ∧ dbWitnessState.phase = .writing 1) ∧
    (1 = (dbWitnessState.currentReadBuffer + 1) % 2 ∧
     dbWitnessState.currentReadBuffer ≠ 1 ∧
     ∀ t, DBStep dbWitnessState t → ∀ r, t.observed = some r →
       t.phase = .writing 1 → r ≠ 1) := by
  have hreach : DBReachable dbWitnessState :=
    DBReachable.step DBReachable.init (DBStep.beginWrite dbInit rfl)
  exact ⟨⟨hreach, rfl⟩, C1_double_buffer_exclusivity dbWitnessState hreach 1 rfl⟩

end DoubleBuffer


namespace NetworkManager

theorem afterFailures_le (R : Nat) :
    ∀ n, n ≤ R → afterFailures R n =
      { RetryCount := n, Retries := R, State := .CONNECTING, ConnectCalls := n + 1 } := by
  intro n
  induction n with
  | zero => intro _; rfl
  | succ n ih =>
    intro h
    have hn : n ≤ R := Nat.le_of_succ_le h
    have hlt : n < R := h
    rw [afterFailures, ih hn]
    simp [on_STA_Disconnected, hlt]

theorem afterFailures_exhausted (R : Nat) :
    ∀ k, afterFailures R (R + 1 + k) =
      { RetryCount := R, Retries := R, State := .ERROR, ConnectCalls := R + 1 } := by
  intro k
  induction k with
  | zero =>
    show afterFailures R (R + 1) = _
    rw [afterFailures, afterFailures_le R R (Nat.le_refl R)]
    simp [on_STA_Disconnected]
  | succ k ih =>
    have hidx : R + 1 + (k + 1) = (R + 1 + k) + 1 := rfl
    rw [hidx, afterFailures, ih]
    simp [on_STA_Disconnected]

/-- C4 counterexample: with max-retries R = 1, after exactly 1 failed
connection attempt the manager is still in CONNECTING — it has issued a
further automatic connect call (the second overall) instead of
transitioning to ERROR as the claim states. -/
theorem C4_retry_exhaustion_counterexample :
    (afterFailures 1 1).State = Network_State_t.CONNECTING ∧
    (afterFailures 1 1).State ≠ Network_State_t.ERROR ∧
    (afterFailures 1 1).ConnectCalls = 2 := by
  decide

/-- C4 (amended): with max-retries R, after R consecutive failures the
manager is still retrying (CONNECTING); the transition to ERROR happens
after exactly R + 1 consecutive failed attempts (the initial attempt plus
R automatic retries), after which no further connect call is ever issued
for any number of additional disconnect events; a successful connection
(`WIFI_EVENT_STA_CONNECTED`) resets the retry counter to zero. -/
theorem C4_retry_exhaustion_amended (R k : Nat) :
    (afterFailures R R).State = Network_State_t.CONNECTING ∧
    (afterFailures R (R + 1)).State = Network_State_t.ERROR ∧
    (afterFailures R (R + 1)).ConnectCalls = R + 1 ∧
    (afterFailures R (R + 1 + k)).ConnectCalls = (afterFailures R (R + 1)).ConnectCalls ∧
    (afterFailures R (R + 1 + k)).State = Network_State_t.ERROR ∧
    ∀ s : NM_State, (on_STA_Connected s).RetryCount = 0 := by
  have hR := afterFailures_le R R (Nat.le_refl R)
  have h0 := afterFailures_exhausted R 0
  have hk := afterFailures_exhausted R k
  refine ⟨?_, ?_, ?_, ?_, ?_, ?_⟩
  · rw [hR]
  · rw [show R + 1 = R + 1 + 0 from rfl, h0]
  · rw [show R + 1 = R + 1 + 0 from rfl, h0]
  · rw [hk, show R + 1 = R + 1 + 0 from rfl, h0]
  · rw [hk]
  · intro s; rfl

end NetworkManager


namespace Provisioning

/-- C5 counterexample: starting provisioning in the configuration actually
selected by `Provisioning_Init` (captive portal) never starts the timeout
timer, so the timeout cannot fire; and even when the network task processes
a provisioning timeout, no AP mode is started (`NetworkManager_StartAP` is
never called on this path), contradicting the claim that the resulting
state is AP-Started. -/
theorem C5_prov_timeout_counterexample :
    (Provisioning_Start (Provisioning_Init provBlank)).active = true ∧
    (Provisioning_Start (Provisioning_Init provBlank)).timerRunning = false ∧
    (task_handle_PROV_TIMEOUT (Provisioning_Start (Provisioning_Init provBlank))).startAPCalls
      = 0 ∧
    (task_handle_PROV_TIMEOUT (Provisioning_Start (Provisioning_Init provBlank))).active
      = false := by
  decide

/-- C5 (amended): when provisioning is active and the network task
processes the provisioning timeout, provisioning is stopped and exactly one
`PROV_TIMEOUT` event is posted (preceded by `PROV_STOPPED`); the one-shot
timer is not left running on the non-captive path; AP mode is NOT started
(no AP-fallback exists in the code).  Moreover the captive-portal
configuration selected by `Provisioning_Init` never starts the timeout
timer in the first place. -/
theorem C5_prov_timeout_amended (w : ProvWorld) (h : w.active = true) :
    (task_handle_PROV_TIMEOUT w).active = false ∧
    (task_handle_PROV_TIMEOUT w).events = w.events ++ [.PROV_STOPPED, .PROV_TIMEOUT] ∧
    (task_handle_PROV_TIMEOUT w).startAPCalls = w.startAPCalls ∧
    (task_handle_PROV_TIMEOUT w).timerRunning = (w.use_captive_portal && w.timerRunning) ∧
    (Provisioning_Start (Provisioning_Init provBlank)).timerRunning = false := by
  have hlast : (Provisioning_Start (Provisioning_Init provBlank)).timerRunning = false := by
    decide
  unfold task_handle_PROV_TIMEOUT Provisioning_Stop
  rw [h]
  by_cases hc : w.use_captive_portal = true
  · simpa [hc] using hlast
  · have hc2 : w.use_captive_portal = false := by
      revert hc
      cases w.use_captive_portal <;> simp
    simpa [hc2] using hlast

/-- Concrete world for the C5 witness: provisioning active via the
non-captive path with the timer running. -/
def c5WitnessWorld : ProvWorld :=
  { isInitialized := true, active := true, use_captive_portal := false,
    timerRunning := true, events := [.PROV_STARTED], startAPCalls := 0 }

/-- Witness for the amended C5 at a concrete active world. -/
theorem C5_prov_timeout_amended_witness :
    c5WitnessWorld.active = true ∧
    ((task_handle_PROV_TIMEOUT c5WitnessWorld).active = false ∧
     (task_handle_PROV_TIMEOUT c5WitnessWorld).events =
       c5WitnessWorld.events ++ [.PROV_STOPPED, .PROV_TIMEOUT] ∧
     (task_handle_PROV_TIMEOUT c5WitnessWorld).startAPCalls = c5WitnessWorld.startAPCalls ∧
     (task_handle_PROV_TIMEOUT c5WitnessWorld).timerRunning =
       (c5WitnessWorld.use_captive_portal && c5WitnessWorld.timerRunning) ∧
     (Provisioning_Start (Provisioning_Init provBlank)).timerRunning = false) :=
  ⟨rfl, C5_prov_timeout_amended c5WitnessWorld rfl⟩

end Provisioning


namespace NetworkTaskStart

/-- C6: evaluation of the start-up branch at the failing input.  With
`AutoConnect` enabled in the stored WiFi settings and stored credentials
present (SSID length 4), the task enters IDLE and neither starts the STA
connection nor provisioning — the transition the claim describes happens
only when `AutoConnect` is disabled, because `Task_Network` inverts the
flag relative to its own comment ("If autoconnect is disabled, wait for
explicit WiFi open request", `networkTask.cpp` line 202). -/
theorem C6_start_autoconnect_inverted :
    networkTaskStart true 4 =
      { State := .IDLE, startSTACalled := false, provisioningStarted := false } ∧
    networkTaskStart false 4 =
      { State := .CONNECTING, startSTACalled := true, provisioningStarted := false } ∧
    networkTaskStart false 0 =
      { State := .PROVISIONING, startSTACalled := false, provisioningStarted := true } := by
  decide

end NetworkTaskStart


namespace NetworkTaskTZ

/-- C3: evaluation at the failing input.  The timezone string "CET-1" is
posted; the event loop copies it into cell 7, the handler stores only the
POINTER to that cell, and the cell is released when dispatch returns.  By
the time the task loop processes the deferred bit, the cell has been reused
for the unrelated string "GMT0" — the deferred processing observes the
mutated memory, not the value posted, refuting copy-on-post for this path. -/
theorem C3_timezone_pointer_not_copied :
    (task_handle_SET_TZ
        (heapSet (esp_event_post_SET_TZ [] { Timezone := none, tzBit := false,
                                             savedTimezone := none } "CET-1" 7).1 7 "GMT0")
        (esp_event_post_SET_TZ [] { Timezone := none, tzBit := false,
                                    savedTimezone := none } "CET-1" 7).2).savedTimezone
      = some "GMT0" ∧
    (task_handle_SET_TZ
        (heapSet (esp_event_post_SET_TZ [] { Timezone := none, tzBit := false,
                                             savedTimezone := none } "CET-1" 7).1 7 "GMT0")
        (esp_event_post_SET_TZ [] { Timezone := none, tzBit := false,
                                    savedTimezone := none } "CET-1" 7).2).savedTimezone
      ≠ some "CET-1" := by
  constructor
  · rfl
  · decide

end NetworkTaskTZ


namespace WebSocketHandler

theorem sendBinary_all_fail (attempt : Nat → Bool)
    (h0 : attempt 0 = false) (h1 : attempt 1 = false) (h2 : attempt 2 = false) :
    WS_SendBinary attempt = false := by
  simp [WS_SendBinary, sendAttempts, h0, h1, h2]

theorem attemptedSend_inactive (Now : Nat) (c : WS_Client_t) (h : c.active = false) :
    attemptedSend Now c = false := by
  simp [attemptedSend, wantsFrame, h]

theorem cycleClient_inactive (Now : Nat) (ok : Bool) (c : WS_Client_t) (h : c.active = false) :
    cycleClient Now ok c = c := by
  simp [cycleClient, attemptedSend_inactive Now c h]

theorem removedInCycle_inactive (Now : Nat) (a : Nat → Nat → Bool) (c : WS_Client_t)
    (h : c.active = false) : removedInCycle Now a c = false := by
  simp [removedInCycle, attemptedSend_inactive Now c h]

theorem broadcastCycle_get_inactive (Now : Nat) (a : Nat → Nat → Bool) (s : WSState)
    (i : Nat) (c : WS_Client_t) (h : c.active = false) (hc : s.Clients.get? i = some c) :
    (WS_BroadcastCycle Now a s).Clients.get? i = some c := by
  show (s.Clients.map _).get? i = some c
  rw [List.get?_map, hc]
  simp [cycleClient_inactive Now _ c h]

theorem runCycles_get_inactive (i : Nat) (c : WS_Client_t) (h : c.active = false) :
    ∀ (ps : List (Nat × (Nat → Nat → Bool))) (s : WSState),
      s.Clients.get? i = some c → (runCycles s ps).Clients.get? i = some c := by
  intro ps
  induction ps with
  | nil => intro s hc; exact hc
  | cons p ps ih =>
    intro s hc
    exact ih _ (broadcastCycle_get_inactive p.1 p.2 s i c h hc)

/-- C7: Client-congestion removal.  If an active, streaming, rate-due
client's send fails on all three retry attempts, the three-attempt send
reports failure, the broadcast cycle marks exactly that client slot
inactive, the client counts exactly once towards this cycle's
`ClientCount` decrement, and from then on the client is never again
attempted, never again counted, and its slot is unchanged by every
subsequent broadcast cycle. -/
theorem C7_client_congestion_removal
    (Now : Nat) (attempt : Nat → Nat → Bool) (s : WSState) (i : Nat) (c : WS_Client_t)
    (hc : s.Clients.get? i = some c)
    (hact : c.active = true) (hstr : c.stream_enabled = true)
    (hrate : rateDue Now c = true)
    (hfail : attempt c.fd 0 = false ∧ attempt c.fd 1 = false ∧ attempt c.fd 2 = false) :
    WS_SendBinary (attempt c.fd) = false ∧
    (WS_BroadcastCycle Now attempt s).Clients.get? i = some { c with active := false } ∧
    removedInCycle Now attempt c = true ∧
    (WS_BroadcastCycle Now attempt s).ClientCount =
      s.ClientCount - s.Clients.countP (fun c2 => removedInCycle Now attempt c2) ∧
    (∀ Now2 a2, removedInCycle Now2 a2 { c with active := false } = false) ∧
    (∀ Now2, attemptedSend Now2 { c with active := false } = false) ∧
    ∀ ps, (runCycles (WS_BroadcastCycle Now attempt s) ps).Clients.get? i =
      some { c with active := false } := by
  obtain ⟨h0, h1, h2⟩ := hfail
  have hsb : WS_SendBinary (attempt c.fd) = false := sendBinary_all_fail _ h0 h1 h2
  have hatt : attemptedSend Now c = true := by
    simp [attemptedSend, wantsFrame, hact, hstr, hrate]
  have hcyc : cycleClient Now (WS_SendBinary (attempt c.fd)) c =
      { c with active := false } := by
    simp [cycleClient, hatt, hsb]
  have hget : (WS_BroadcastCycle Now attempt s).Clients.get? i =
      some { c with active := false } := by
    show (s.Clients.map _).get? i = _
    rw [List.get?_map, hc]
    simp [hcyc]
  refine ⟨hsb, hget, ?_, rfl, ?_, ?_, ?_⟩
  · simp [removedInCycle, hatt, hsb]
  · intro Now2 a2
    exact removedInCycle_inactive Now2 a2 _ rfl
  · intro Now2
    exact attemptedSend_inactive Now2 _ rfl
  · intro ps
    exact runCycles_get_inactive i { c with active := false } rfl ps _ hget

/-- Concrete client for the C7 witness: streaming at 8 fps, never sent to. -/
def c7WitnessClient : WS_Client_t :=
  { fd := 5, active := true, stream_enabled := true, telemetry_enabled := false,
    stream_fps := 8, telemetry_interval_ms := 1000, last_telemetry_time := 0,
    last_frame_time := 0 }

/-- Witness for C7: a one-client table at time 200 ms with every send
attempt failing. -/
theorem C7_client_congestion_removal_witness :
    ((([c7WitnessClient] : List WS_Client_t).get? 0 = some c7WitnessClient) ∧
     c7WitnessClient.active = true ∧
     c7WitnessClient.stream_enabled = true ∧
     rateDue 200 c7WitnessClient = true ∧
     ((fun (_ : Nat) (_ : Nat) => false) c7WitnessClient.fd 0 = false ∧
      (fun (_ : Nat) (_ : Nat) => false) c7WitnessClient.fd 1 = false ∧
      (fun (_ : Nat) (_ : Nat) => false) c7WitnessClient.fd 2 = false)) ∧
    (WS_SendBinary ((fun (_ : Nat) (_ : Nat) => false) c7WitnessClient.fd) = false ∧
     (WS_BroadcastCycle 200 (fun _ _ => false)
        { Clients := [c7WitnessClient], ClientCount := 1 }).Clients.get? 0 =
       some { c7WitnessClient with active := false } ∧
     removedInCycle 200 (fun _ _ => false) c7WitnessClient = true ∧
     (WS_BroadcastCycle 200 (fun _ _ => false)
        { Clients := [c7WitnessClient], ClientCount := 1 }).ClientCount =
       ({ Clients := [c7WitnessClient], ClientCount := 1 } : WSState).ClientCount -
         ([c7WitnessClient] : List WS_Client_t).countP
           (fun c2 => removedInCycle 200 (fun _ _ => false) c2) ∧
     (∀ Now2 a2, removedInCycle Now2 a2 { c7WitnessClient with active := false } = false) ∧
     (∀ Now2, attemptedSend Now2 { c7WitnessClient with active := false } = false) ∧
     ∀ ps, (runCycles (WS_BroadcastCycle 200 (fun _ _ => false)
         { Clients := [c7WitnessClient], ClientCount := 1 }) ps).Clients.get? 0 =
       some { c7WitnessClient with active := false }) :=
  ⟨⟨rfl, rfl, rfl, by decide, rfl, rfl, rfl⟩,
   C7_client_congestion_removal 200 (fun _ _ => false)
     { Clients := [c7WitnessClient], ClientCount := 1 } 0 c7WitnessClient
     rfl rfl rfl (by decide) ⟨rfl, rfl, rfl⟩⟩

theorem sendTimes_skip (fps lastRec Now : Nat) (rest : List Nat)
    (h : Now - lastRec < 1000 / fps) :
    sendTimes fps lastRec (Now :: rest) = sendTimes fps lastRec rest := by
  simp [sendTimes, h]

theorem sendTimes_chain (fps : Nat) (hg : 1 ≤ 1000 / fps) :
    ∀ (ts : List Nat) (last : Nat),
      List.Chain (fun a b => a + 1000 / fps ≤ b) last (sendTimes fps last ts) := by
  intro ts
  induction ts with
  | nil => intro last; exact List.Chain.nil
  | cons Now rest ih =>
    intro last
    by_cases h : Now - last < 1000 / fps
    · simp only [sendTimes, if_pos h]
      exact ih last
    · simp only [sendTimes, if_neg h]
      refine List.Chain.cons ?_ (ih Now)
      omega

/-- C9: Per-client frame-rate gating.  For a client at fps `F` (clamped to
1..30 by `WS_HandleStart`), a broadcast cycle skips the client whenever
fewer than `1000 / F` ms (integer division) have elapsed since the recorded
last-frame time, and consequently the successful send times, starting from
the recorded time, are pairwise spaced at least `1000 / F` ms apart. -/
theorem C9_per_client_frame_rate_gating (fps last : Nat) (ts : List Nat)
    (hfps1 : 1 ≤ fps) (hfps30 : fps ≤ 30) :
    (∀ (lastRec Now : Nat) (rest : List Nat), Now - lastRec < 1000 / fps →
       sendTimes fps lastRec (Now :: rest) = sendTimes fps lastRec rest) ∧
    List.Chain (fun a b => a + 1000 / fps ≤ b) last (sendTimes fps last ts) := by
  have hg : 1 ≤ 1000 / fps := by
    have hmono : (1000 : Nat) / 30 ≤ 1000 / fps := Nat.div_le_div_left hfps30 hfps1
    have h30 : (1000 : Nat) / 30 = 33 := by norm_num
    omega
  exact ⟨fun lastRec Now rest h => sendTimes_skip fps lastRec Now rest h,
         sendTimes_chain fps hg ts last⟩

/-- Witness for C9: fps = 8 (gate 125 ms), cycles at 50/125/200/250 ms. -/
theorem C9_per_client_frame_rate_gating_witness :
    ((1 : Nat) ≤ 8 ∧ (8 : Nat) ≤ 30) ∧
    ((∀ (lastRec Now : Nat) (rest : List Nat), Now - lastRec < 1000 / 8 →
        sendTimes 8 lastRec (Now :: rest) = sendTimes 8 lastRec rest) ∧
     List.Chain (fun a b => a + 1000 / 8 ≤ b) 0 (sendTimes 8 0 [50, 125, 200, 250])) :=
  ⟨⟨by decide, by decide⟩,
   C9_per_client_frame_rate_gating 8 0 [50, 125, 200, 250] (by decide) (by decide)⟩

/-- Concrete client for the C10 evaluation. -/
def c10Client : WS_Client_t :=
  { fd := 5, active := true, stream_enabled := false, telemetry_enabled := false,
    stream_fps := 8, telemetry_interval_ms := 1000, last_telemetry_time := 0,
    last_frame_time := 0 }

/-- C10: evaluation at the failing input.  When an active client with the
requested descriptor exists, `WS_FindClient` returns it from inside the
scan loop WITHOUT reaching the `xSemaphoreGive` — the second component
records that the clients mutex is still held at return; only the
not-found path releases it.  This refutes the claimed release-balance on
the found path. -/
theorem C10_find_client_mutex_held_on_found :
    (WS_FindClient [c10Client] 5).1 = some c10Client ∧
    (WS_FindClient [c10Client] 5).2 = true ∧
    (WS_FindClient ([] : List WS_Client_t) 5).2 = false := by
  decide

end WebSocketHandler


namespace GuiNetworkFrame

/-- C8: Buffer-busy skip atomicity.  When the non-blocking acquire of the
NetworkFrame mutex fails during a render cycle, the cycle's network-frame
update is skipped entirely: the resulting NetworkFrame is exactly the
previous one, field by field (buffer contents, dimensions, temperatures,
timestamp). -/
theorem C8_buffer_busy_skip (serverRunning mutexAcquired hasClients : Bool)
    (frame : Network_Thermal_Frame_t) (rgb888 : List Nat) (w h ts : Nat)
    (tmin tmax tavg : Int) (hbusy : mutexAcquired = false) :
    (GUI_UpdateNetworkFrame serverRunning mutexAcquired hasClients frame rgb888
        w h ts tmin tmax tavg).1 = frame ∧
    (GUI_UpdateNetworkFrame serverRunning mutexAcquired hasClients frame rgb888
        w h ts tmin tmax tavg).1.buffer = frame.buffer ∧
    (GUI_UpdateNetworkFrame serverRunning mutexAcquired hasClients frame rgb888
        w h ts tmin tmax tavg).1.width = frame.width ∧
    (GUI_UpdateNetworkFrame serverRunning mutexAcquired hasClients frame rgb888
        w h ts tmin tmax tavg).1.height = frame.height ∧
    (GUI_UpdateNetworkFrame serverRunning mutexAcquired hasClients frame rgb888
        w h ts tmin tmax tavg).1.temp_min = frame.temp_min ∧
    (GUI_UpdateNetworkFrame serverRunning mutexAcquired hasClients frame rgb888
        w h ts tmin tmax tavg).1.temp_max = frame.temp_max ∧
    (GUI_UpdateNetworkFrame serverRunning mutexAcquired hasClients frame rgb888
        w h ts tmin tmax tavg).1.temp_avg = frame.temp_avg ∧
    (GUI_UpdateNetworkFrame serverRunning mutexAcquired hasClients frame rgb888
        w h ts tmin tmax tavg).1.timestamp = frame.timestamp := by
  subst hbusy
  cases serverRunning <;> simp [GUI_UpdateNetworkFrame]

/-- Concrete previous frame for the C8 witness. -/
def c8WitnessFrame : Network_Thermal_Frame_t :=
  { buffer := [1, 2, 3], width := 240, height := 180,
    temp_min := -5, temp_max := 40, temp_avg := 20, timestamp := 1000 }

/-- Witness for C8: server running, mutex busy, fresh data pending — the
frame is left exactly as it was. -/
theorem C8_buffer_busy_skip_witness :
    (false = false) ∧
    ((GUI_UpdateNetworkFrame true false true c8WitnessFrame [9, 9] 240 180 2000
        (-7) 41 21).1 = c8WitnessFrame ∧
     (GUI_UpdateNetworkFrame true false true c8WitnessFrame [9, 9] 240 180 2000
        (-7) 41 21).1.buffer = c8WitnessFrame.buffer ∧
     (GUI_UpdateNetworkFrame true false true c8WitnessFrame [9, 9] 240 180 2000
        (-7) 41 21).1.width = c8WitnessFrame.width ∧
     (GUI_UpdateNetworkFrame true false true c8WitnessFrame [9, 9] 240 180 2000
        (-7) 41 21).1.height = c8WitnessFrame.height ∧
     (GUI_UpdateNetworkFrame true false true c8WitnessFrame [9, 9] 240 180 2000
        (-7) 41 21).1.temp_min = c8WitnessFrame.temp_min ∧
     (GUI_UpdateNetworkFrame true false true c8WitnessFrame [9, 9] 240 180 2000
        (-7) 41 21).1.temp_max = c8WitnessFrame.temp_max ∧
     (GUI_UpdateNetworkFrame true false true c8WitnessFrame [9, 9] 240 180 2000
        (-7) 41 21).1.temp_avg = c8WitnessFrame.temp_avg ∧
     (GUI_UpdateNetworkFrame true false true c8WitnessFrame [9, 9] 240 180 2000
        (-7) 41 21).1.timestamp = c8WitnessFrame.timestamp) :=
  ⟨rfl, C8_buffer_busy_skip true false true c8WitnessFrame [9, 9] 240 180 2000
     (-7) 41 21 rfl⟩

end GuiNetworkFrame
